import Mathlib

set_option autoImplicit false
set_option maxRecDepth 8192

/-!
Shallow embedding of the libcosim Conan recipe (`conanfile.py`), covering the
option schema, the `requirements` dependency expansion, the `config_options` /
`configure` option-resolution steps (including the dependency-option
propagation assignments), `generate`'s toolchain cache variables, `build`'s
test gating via the `LIBCOSIM_RUN_TESTS_ON_CONAN_BUILD` environment variable,
`package_info`, and `validate`.
-/

namespace Libcosim

/-- The `settings.os` values the recipe distinguishes: `config_options` only
tests whether the OS is Windows. -/
inductive OS where
  | windows
  | linux
  | macos
deriving DecidableEq, Repr

/-- The recipe's own option set (the `options` class attribute).  `fPIC` is
representable as absent because `config_options` / `configure` may delete it
(`del self.options.fPIC`, `self.options.rm_safe("fPIC")`). -/
structure Options where
  shared : Bool
  fPIC : Option Bool
  proxyfmu : Bool
  no_fmi_logging : Bool
deriving DecidableEq, Repr

/-- The `default_options` class attribute: shared=True, fPIC=True,
proxyfmu=False, no_fmi_logging=False. -/
def default_options : Options :=
  { shared := true, fPIC := some true, proxyfmu := false, no_fmi_logging := false }

/-- One entry of `requirements`: a `self.requires(...)` call with its version
constraint string and traits. -/
structure Requirement where
  name : String
  version : String
  transitive_headers : Bool
  transitive_libs : Bool
deriving DecidableEq, Repr

/-- The `requirements` method: the unconditional requires in declaration
order, with `proxyfmu/0.3.2@osp/stable` and `boost/[~1.81]` when
`options.proxyfmu` is set and `boost/[>=1.71]` otherwise.  (The
`tool_requires("cmake/[>=3.19]")` line is a tool requirement, kept separately
in `tool_requirements`.) -/
def requirements (opts : Options) : List Requirement :=
  [⟨"fmilibrary", "[~2.3]", false, false⟩,
   ⟨"libcbor", "[~0.11.0]", false, false⟩,
   ⟨"libzip", "[>=1.7 <1.10]", false, false⟩,
   ⟨"ms-gsl", "[>=3 <5]", true, false⟩] ++
  (if opts.proxyfmu then
    [⟨"proxyfmu", "0.3.2@osp/stable", false, false⟩,
     ⟨"boost", "[~1.81]", true, true⟩]
   else
    [⟨"boost", "[>=1.71]", true, true⟩]) ++
  [⟨"yaml-cpp", "[~0.8]", false, false⟩,
   ⟨"xerces-c", "[~3.2]", false, false⟩]

/-- The `tool_requires` call in `requirements`. -/
def tool_requirements : List Requirement :=
  [⟨"cmake", "[>=3.19]", false, false⟩]

/-- The `config_options` method: on Windows, `del self.options.fPIC`. -/
def config_options (os : OS) (opts : Options) : Options :=
  if os = OS.windows then { opts with fPIC := none } else opts

/-- The self-option part of the `configure` method: if `options.shared`,
`self.options.rm_safe("fPIC")` (removing `fPIC` when present, a no-op when it
was already deleted). -/
def configure_self (opts : Options) : Options :=
  if opts.shared then { opts with fPIC := none } else opts

/-- A target of a dependency-option assignment in `configure`: either the
wildcard pattern `self.options["*"]` or a specific dependency pattern such as
`self.options["libcbor/*"]`. -/
inductive AssignTarget where
  | wildcard
  | dep (name : String)
deriving DecidableEq, Repr

/-- Whether an assignment target's pattern covers a dependency of the given
name. -/
def AssignTarget.covers : AssignTarget → String → Bool
  | AssignTarget.wildcard, _ => true
  | AssignTarget.dep n, m => n == m

/-- One `shared` assignment statement on dependency options, e.g.
`self.options["*"].shared = self.options.shared`. -/
structure SharedAssignment where
  target : AssignTarget
  value : Bool
deriving DecidableEq, Repr

/-- Execute one assignment statement on the dependency `shared` state: every
dependency the target covers gets the assigned value, all others keep their
previous value. -/
def applyAssignment (st : String → Bool) (a : SharedAssignment) : String → Bool :=
  fun name => if a.target.covers name then a.value else st name

/-- Execute a sequence of assignment statements in declaration order. -/
def applyAssignments (st : String → Bool) (l : List SharedAssignment) : String → Bool :=
  l.foldl applyAssignment st

/-- The dependency-option assignments in `configure`, in source order:
`self.options["*"].shared = self.options.shared` followed by
`self.options["libcbor/*"].shared = False`. -/
def configureAssignments (opts : Options) : List SharedAssignment :=
  [⟨AssignTarget.wildcard, opts.shared⟩,
   ⟨AssignTarget.dep "libcbor", false⟩]

/-- The dependency `shared` state after `configure` runs its assignments on a
prior state `st`. -/
def configureDepShared (opts : Options) (st : String → Bool) : String → Bool :=
  applyAssignments st (configureAssignments opts)

/-- A process environment, as a key/value list. -/
abbrev Env := List (String × String)

/-- `os.getenv(key, dflt)`: the value bound to `key`, or `dflt` when the
variable is absent. -/
def getenv (env : Env) (key dflt : String) : String :=
  match env.find? (fun p => p.1 == key) with
  | some p => p.2
  | none => dflt

/-- The Python `str.lower()` method on the (ASCII) strings the recipe
compares, implemented over the character list. -/
def lower (s : String) : String :=
  String.mk (s.data.map Char.toLower)

/-- The `_is_tests_enabled` helper:
`os.getenv("LIBCOSIM_RUN_TESTS_ON_CONAN_BUILD", "False").lower() in ("true", "1")`. -/
def is_tests_enabled (env : Env) : Bool :=
  let v := lower (getenv env "LIBCOSIM_RUN_TESTS_ON_CONAN_BUILD" "False")
  v == "true" || v == "1"

/-- The toolchain cache variables set by `generate`, in source order.  Values
are the booleans assigned to `tc.cache_variables`. -/
def generate_cache_variables (opts : Options) (env : Env) : List (String × Bool) :=
  [("LIBCOSIM_BUILD_APIDOC", false),
   ("LIBCOSIM_BUILD_TESTS", is_tests_enabled env),
   ("LIBCOSIM_NO_FMI_LOGGING", opts.no_fmi_logging),
   ("LIBCOSIM_WITH_PROXYFMU", opts.proxyfmu)]

/-- Render one cache-variable definition as text. -/
def render_cache_variable (kv : String × Bool) : String :=
  kv.1 ++ "=" ++ (if kv.2 then "ON" else "OFF")

/-- The serialized toolchain payload `generate` emits: the cache-variable
definitions rendered in order, one per line. -/
def render_toolchain (opts : Options) (env : Env) : String :=
  String.intercalate "\n" ((generate_cache_variables opts env).map render_cache_variable)

/-- `generate` as a step of the pipeline: it emits the serialized toolchain
payload and, since the source method never writes to `self.options`, hands the
option state through unchanged. -/
def generate_step (opts : Options) (env : Env) : String × Options :=
  (render_toolchain opts env, opts)

/-- External build-tool invocations made by the `build` and `package` methods
(`cmake.configure()`, `cmake.build()`, `cmake.test()`, `cmake.install()`). -/
inductive BuildStep where
  | cmakeConfigure
  | cmakeBuild
  | cmakeTest
  | cmakeInstall
deriving DecidableEq, Repr

/-- The `build` method's invocations: `cmake.configure()`, `cmake.build()`,
then `cmake.test()` exactly when `_is_tests_enabled()`. -/
def build_steps (_opts : Options) (env : Env) : List BuildStep :=
  [BuildStep.cmakeConfigure, BuildStep.cmakeBuild] ++
  (if is_tests_enabled env then [BuildStep.cmakeTest] else [])

/-- The `package` method's invocation: `cmake.install()`. -/
def package_steps : List BuildStep :=
  [BuildStep.cmakeInstall]

/-- A `ConanInvalidConfiguration` raised by `validate`, recording the
dependency it names and the message text. -/
structure ValidationViolation where
  offending : String
  message : String
deriving DecidableEq, Repr

/-- The `validate` method: raise `ConanInvalidConfiguration` when
`self.options.shared` and boost's `shared` option is not set; otherwise
accept. -/
def validate (opts : Options) (depShared : String → Bool) :
    Except ValidationViolation Unit :=
  if opts.shared && !(depShared "boost") then
    Except.error ⟨"boost",
      "Option libcosim:shared=True also requires option boost:shared=True"⟩
  else
    Except.ok ()

/-- Modelled from the spec: the lifecycle ordering — the validator accepting
the plan before any build phase runs — is enforced by the Conan framework,
which is not part of this repository's sources; §4.6 states `Configure`
depends on the Validator having accepted the Plan and a rejected Plan never
reaches `Configure`, and §7 that the system never invokes a build tool
against a configuration it knows to be invalid.  `validate` itself is the
source method above; on rejection no external build tool is invoked. -/
def executed_build_steps (opts : Options) (depShared : String → Bool) (env : Env) :
    List BuildStep :=
  match validate opts depShared with
  | Except.error _ => []
  | Except.ok _ => build_steps opts env ++ package_steps

/-- The package descriptor published by `package_info`. -/
structure PackageInfo where
  libs : List String
  cmake_target_name : String
  builddirs : List String
  cmake_find_mode : String
deriving DecidableEq, Repr

/-- The `package_info` method: one library artifact `cosim`, the CMake target
name, the appended builddir, and `cmake_find_mode = "none"`.  The source
method reads no options, so the result ignores its argument. -/
def package_info (_opts : Options) : PackageInfo :=
  { libs := ["cosim"],
    cmake_target_name := "libcosim::cosim",
    builddirs := ["."],
    cmake_find_mode := "none" }

/-! Theorems settling the claims. -/

/-- Claim C1, counterexample: with the default options (shared=True), libcbor
is a dependency in the plan, yet after the `configure` propagation its
`shared` option is False — so not every linkage-capable dependency is
configured for dynamic linkage; libcbor is an exception. -/
theorem C1_counterexample :
    default_options.shared = true ∧
    "libcbor" ∈ (requirements default_options).map Requirement.name ∧
    configureDepShared default_options (fun _ => true) "libcbor" = false := by
  refine ⟨rfl, ?_, rfl⟩
  have hmap : (requirements default_options).map Requirement.name =
      ["fmilibrary", "libcbor", "libzip", "ms-gsl", "boost",
       "yaml-cpp", "xerces-c"] := rfl
  rw [hmap]
  exact List.Mem.tail _ (List.Mem.head _)

/-- Claim C1 (amended): when the top-level `shared` option is True, after the
`configure` propagation every dependency other than libcbor has its `shared`
option forced to True, while libcbor's is forced to False. -/
theorem C1_amended_propagation (opts : Options) (st : String → Bool)
    (name : String) (hshared : opts.shared = true) :
    (name ≠ "libcbor" → configureDepShared opts st name = true) ∧
    configureDepShared opts st "libcbor" = false := by
  constructor
  · intro hne
    have hbeq : ("libcbor" == name) = false :=
      beq_eq_false_iff_ne.mpr (Ne.symm hne)
    simp [configureDepShared, applyAssignments, configureAssignments,
      applyAssignment, AssignTarget.covers, hbeq, hshared]
  · simp [configureDepShared, applyAssignments, configureAssignments,
      applyAssignment, AssignTarget.covers]

/-- Witness for C1_amended_propagation at a concrete input. -/
theorem C1_amended_propagation_witness :
    configureDepShared default_options (fun _ => false) "boost" = true ∧
    configureDepShared default_options (fun _ => false) "libcbor" = false :=
  ⟨(C1_amended_propagation default_options (fun _ => false) "boost" rfl).1
      (by decide),
    (C1_amended_propagation default_options (fun _ => false) "boost" rfl).2⟩

/-- Claim C2, counterexample: with the default options (shared=True), the plan
produced by the recipe's own `configure` propagation has libcbor — a
dependency linked into the same binary — configured static, yet `validate`
accepts the plan instead of rejecting it with a violation naming libcbor:
`validate` only checks boost. -/
theorem C2_counterexample :
    default_options.shared = true ∧
    "libcbor" ∈ (requirements default_options).map Requirement.name ∧
    configureDepShared default_options (fun _ => true) "libcbor" = false ∧
    validate default_options (configureDepShared default_options (fun _ => true)) =
      Except.ok () := by
  refine ⟨rfl, ?_, rfl, rfl⟩
  have hmap : (requirements default_options).map Requirement.name =
      ["fmilibrary", "libcbor", "libzip", "ms-gsl", "boost",
       "yaml-cpp", "xerces-c"] := rfl
  rw [hmap]
  exact List.Mem.tail _ (List.Mem.head _)

/-- Claim C2 (amended): `validate` rejects the plan exactly when the top-level
`shared` option is True and boost's `shared` option is False, with a violation
naming boost; in every other case — including static linkage of any other
dependency — it accepts. -/
theorem C2_amended_validate (opts : Options) (ds : String → Bool) :
    (opts.shared = true → ds "boost" = false →
      validate opts ds = Except.error ⟨"boost",
        "Option libcosim:shared=True also requires option boost:shared=True"⟩) ∧
    ((opts.shared = false ∨ ds "boost" = true) →
      validate opts ds = Except.ok ()) := by
  constructor
  · intro h1 h2
    simp [validate, h1, h2]
  · rintro (h | h) <;> simp [validate, h]

/-- Witness for C2_amended_validate at a concrete input. -/
theorem C2_amended_validate_witness :
    validate default_options (fun _ => false) = Except.error ⟨"boost",
      "Option libcosim:shared=True also requires option boost:shared=True"⟩ :=
  (C2_amended_validate default_options (fun _ => false)).1 rfl rfl

/-- Claim C3: applying assignment statements in declaration order is
last-writer-wins — the final statement covering a dependency determines its
value regardless of earlier statements — and in particular the wildcard
statement of `configure` assigns `opts.shared` to libcbor but the later
libcbor-specific statement overrides it to False. -/
theorem C3_last_writer_wins :
    (∀ (st : String → Bool) (rules : List SharedAssignment)
      (a : SharedAssignment) (name : String),
        a.target.covers name = true →
        applyAssignments st (rules ++ [a]) name = a.value) ∧
    (∀ (opts : Options) (st : String → Bool),
      applyAssignment st ⟨AssignTarget.wildcard, opts.shared⟩ "libcbor" =
        opts.shared ∧
      configureDepShared opts st "libcbor" = false) := by
  constructor
  · intro st rules a name hc
    rw [applyAssignments, List.foldl_append]
    simp [applyAssignment, hc]
  · intro opts st
    constructor
    · simp [applyAssignment, AssignTarget.covers]
    · simp [configureDepShared, applyAssignments, configureAssignments,
        applyAssignment, AssignTarget.covers]

/-- Witness for C3_last_writer_wins at a concrete input: a wildcard rule
assigning True followed by a libcbor-specific rule assigning False yields
False for libcbor. -/
theorem C3_last_writer_wins_witness :
    applyAssignments (fun _ => true)
      ([⟨AssignTarget.wildcard, true⟩] ++ [⟨AssignTarget.dep "libcbor", false⟩])
      "libcbor" = false :=
  C3_last_writer_wins.1 (fun _ => true) [⟨AssignTarget.wildcard, true⟩]
    ⟨AssignTarget.dep "libcbor", false⟩ "libcbor" (by decide)

/-- Claim C4: for every option configuration, `cmake.test()` runs only when
`_is_tests_enabled()` holds; if the `LIBCOSIM_BUILD_TESTS` toggle is emitted
as False the Test step never runs, if the environment gate variable is absent
the Test step never runs, and the Test step runs exactly when the gate
evaluates true (hard AND of toggle and gate, which the recipe derives from
the same helper). -/
theorem C4_test_gate (opts : Options) (env : Env) :
    (is_tests_enabled env = false →
      BuildStep.cmakeTest ∉ build_steps opts env) ∧
    (env.find? (fun p => p.1 == "LIBCOSIM_RUN_TESTS_ON_CONAN_BUILD") = none →
      BuildStep.cmakeTest ∉ build_steps opts env) ∧
    (("LIBCOSIM_BUILD_TESTS", false) ∈ generate_cache_variables opts env →
      BuildStep.cmakeTest ∉ build_steps opts env) ∧
    (BuildStep.cmakeTest ∈ build_steps opts env ↔ is_tests_enabled env = true) := by
  have hmem : BuildStep.cmakeTest ∈ build_steps opts env ↔
      is_tests_enabled env = true := by
    rcases h : is_tests_enabled env <;> simp [build_steps, h]
  refine ⟨?_, ?_, ?_, hmem⟩
  · intro h
    simp [build_steps, h]
  · intro h
    have henv : is_tests_enabled env = false := by
      unfold is_tests_enabled getenv
      rw [h]
      rfl
    simp [build_steps, henv]
  · intro h
    have henv : is_tests_enabled env = false := by
      simpa [generate_cache_variables] using h
    simp [build_steps, henv]

/-- Witness for C4_test_gate at a concrete input: with an empty environment
the Test step does not run. -/
theorem C4_test_gate_witness :
    BuildStep.cmakeTest ∉ build_steps default_options [] :=
  (C4_test_gate default_options []).2.1 rfl

/-- Claim C5: `requirements` returns exactly the unconditional base
requirements plus, when proxyfmu is True, the proxyfmu requirement and
boost ~1.81 (otherwise boost >=1.71), in declaration order; and any two
option configurations agreeing on proxyfmu yield the identical list. -/
theorem C5_requirements (opts : Options) :
    (opts.proxyfmu = true → requirements opts =
      [⟨"fmilibrary", "[~2.3]", false, false⟩,
       ⟨"libcbor", "[~0.11.0]", false, false⟩,
       ⟨"libzip", "[>=1.7 <1.10]", false, false⟩,
       ⟨"ms-gsl", "[>=3 <5]", true, false⟩,
       ⟨"proxyfmu", "0.3.2@osp/stable", false, false⟩,
       ⟨"boost", "[~1.81]", true, true⟩,
       ⟨"yaml-cpp", "[~0.8]", false, false⟩,
       ⟨"xerces-c", "[~3.2]", false, false⟩]) ∧
    (opts.proxyfmu = false → requirements opts =
      [⟨"fmilibrary", "[~2.3]", false, false⟩,
       ⟨"libcbor", "[~0.11.0]", false, false⟩,
       ⟨"libzip", "[>=1.7 <1.10]", false, false⟩,
       ⟨"ms-gsl", "[>=3 <5]", true, false⟩,
       ⟨"boost", "[>=1.71]", true, true⟩,
       ⟨"yaml-cpp", "[~0.8]", false, false⟩,
       ⟨"xerces-c", "[~3.2]", false, false⟩]) ∧
    (∀ opts2 : Options, opts.proxyfmu = opts2.proxyfmu →
      requirements opts = requirements opts2) := by
  refine ⟨?_, ?_, ?_⟩
  · intro h
    simp [requirements, h]
  · intro h
    simp [requirements, h]
  · intro opts2 h
    simp [requirements, h]

/-- Witness for C5_requirements at a concrete input. -/
theorem C5_requirements_witness :
    requirements default_options =
      [⟨"fmilibrary", "[~2.3]", false, false⟩,
       ⟨"libcbor", "[~0.11.0]", false, false⟩,
       ⟨"libzip", "[>=1.7 <1.10]", false, false⟩,
       ⟨"ms-gsl", "[>=3 <5]", true, false⟩,
       ⟨"boost", "[>=1.71]", true, true⟩,
       ⟨"yaml-cpp", "[~0.8]", false, false⟩,
       ⟨"xerces-c", "[~3.2]", false, false⟩] :=
  (C5_requirements default_options).2.1 rfl

/-- Claim C6: whenever `validate` rejects — in particular for shared=True with
boost configured static — no external build-tool step (Configure, Build, Test
or Package) is executed. -/
theorem C6_no_steps_on_rejection (opts : Options) (ds : String → Bool)
    (env : Env) :
    ((∃ v, validate opts ds = Except.error v) →
      executed_build_steps opts ds env = []) ∧
    (opts.shared = true → ds "boost" = false →
      executed_build_steps opts ds env = []) := by
  constructor
  · rintro ⟨v, hv⟩
    simp [executed_build_steps, hv]
  · intro h1 h2
    simp [executed_build_steps, validate, h1, h2]

/-- Witness for C6_no_steps_on_rejection at a concrete input. -/
theorem C6_no_steps_on_rejection_witness :
    executed_build_steps default_options (fun _ => false) [] = [] :=
  (C6_no_steps_on_rejection default_options (fun _ => false) []).2 rfl rfl

/-- Claim C7: `generate` is pure with respect to the plan — it returns the
option state unchanged — and two invocations on identical options and
environment produce byte-for-byte identical serialized toolchain output. -/
theorem C7_generate_deterministic (o1 o2 : Options) (e1 e2 : Env)
    (ho : o1 = o2) (he : e1 = e2) :
    generate_step o1 e1 = generate_step o2 e2 ∧
    (generate_step o1 e1).2 = o1 := by
  subst ho
  subst he
  exact ⟨rfl, rfl⟩

/-- Witness for C7_generate_deterministic at a concrete input. -/
theorem C7_generate_deterministic_witness :
    generate_step default_options [] = generate_step default_options [] ∧
    (generate_step default_options []).2 = default_options :=
  C7_generate_deterministic default_options default_options [] [] rfl rfl

/-- Claim C8: for every option configuration, `package_info` lists exactly one
binary artifact name, cosim, and sets `cmake_find_mode` to none so consumers
use the library's own CMake package configuration file. -/
theorem C8_package_info (opts : Options) :
    (package_info opts).libs = ["cosim"] ∧
    (package_info opts).libs.length = 1 ∧
    (package_info opts).cmake_find_mode = "none" :=
  ⟨rfl, rfl, rfl⟩

/-- Claim C9: after `config_options` then `configure`, the `fPIC` option is
absent whenever the OS is Windows or `shared` is True; on a non-Windows OS
with `shared` False it is untouched, and the declared default leaves it
present with value True. -/
theorem C9_fPIC_resolution (os : OS) (opts : Options) :
    ((os = OS.windows ∨ opts.shared = true) →
      (configure_self (config_options os opts)).fPIC = none) ∧
    (os ≠ OS.windows → opts.shared = false →
      (configure_self (config_options os opts)).fPIC = opts.fPIC) ∧
    default_options.fPIC = some true := by
  refine ⟨?_, ?_, rfl⟩
  · rintro (h | h)
    · rcases hs : opts.shared <;>
        simp [config_options, configure_self, h, hs]
    · rcases ho : decide (os = OS.windows) <;>
        simp_all [config_options, configure_self]
  · intro h1 h2
    simp [config_options, configure_self, h1, h2]

/-- Witness for C9_fPIC_resolution at a concrete input: on Linux with shared
disabled and all other options at their defaults, `fPIC` survives resolution
with its default value True. -/
theorem C9_fPIC_resolution_witness :
    (configure_self (config_options OS.linux
      { default_options with shared := false })).fPIC = some true :=
  (C9_fPIC_resolution OS.linux { default_options with shared := false }).2.1
    (by decide) rfl

/-- Claim C10: for every option configuration and every prior dependency
state — in particular with shared=True — the `configure` propagation leaves
libcbor's `shared` option forced to False. -/
theorem C10_libcbor_static (opts : Options) (st : String → Bool) :
    configureDepShared opts st "libcbor" = false ∧
    configureDepShared { opts with shared := true } st "libcbor" = false := by
  constructor <;>
    simp [configureDepShared, applyAssignments, configureAssignments,
      applyAssignment, AssignTarget.covers]

end Libcosim
